import Mathlib

/-!
Shallow embedding of the reconciliation core of obsidian-livesync
(src/common/utils.ts and src/modules/core/ModuleFileHandler.ts).

Timestamps are modelled as natural numbers (JavaScript file mtimes are
non-negative millisecond counts); JavaScript division followed by the
double bitwise-not truncation on these values is Nat division.
External services (storage access, database access) are modelled as an
explicit environment of functions, and the mutations the engine requests
from them are recorded as an explicit effect list.
-/

/-- The tri-state freshness verdict: the symbols BASE_IS_NEW, TARGET_IS_NEW
and EVEN of src/common/utils.ts. -/
inductive MTimeVerdict where
  | BASE_IS_NEW : MTimeVerdict
  | TARGET_IS_NEW : MTimeVerdict
  | EVEN : MTimeVerdict
deriving DecidableEq, Repr

open MTimeVerdict

/-- The clock resolution constant of src/common/utils.ts (2000 ms, for
ZIP-file mtime resolution). -/
def resolution : Nat := 2000

/-- Embedding of compareMTime (src/common/utils.ts lines 272-283).  The
source truncates both timestamps to the resolution floor and compares;
its trailing branch throws "Unexpected error", modelled as Except.error. -/
def compareMTime (baseMTime targetMTime : Nat) : Except String MTimeVerdict :=
  let truncatedBaseMTime := baseMTime / resolution * resolution
  let truncatedTargetMTime := targetMTime / resolution * resolution
  if truncatedBaseMTime = truncatedTargetMTime then .ok EVEN
  else if truncatedBaseMTime > truncatedTargetMTime then .ok BASE_IS_NEW
  else if truncatedBaseMTime < truncatedTargetMTime then .ok TARGET_IS_NEW
  else .error "Unexpected error"

/-- The sameChangePairs store (src/common/stores.ts), modelled as a total
map from path keys to the stored timestamp list; an absent key is
observationally the empty list (the source reads it with default []). -/
def SameChangePairs : Type := String → List Nat

/-- The empty sameChangePairs store. -/
def sameChangePairsEmpty : SameChangePairs := fun _ => []

/-- Map update, the sameChangePairs.set of the source. -/
def pairsSet (m : SameChangePairs) (key : String) (v : List Nat) : SameChangePairs :=
  fun k => if k = key then v else m k

/-- JavaScript Set-based deduplication [...new Set(l)]: keeps the first
occurrence of each element, in order. -/
def jsDedup (l : List Nat) : List Nat :=
  l.foldl (fun acc e => if e ∈ acc then acc else acc ++ [e]) []

/-- Embedding of markChangesAreSame (src/common/utils.ts lines 290-299):
no-op when the two mtimes are equal; if the stored list for the key meets
the pair, union the pair in (Set-dedup); otherwise replace the stored
list with the fresh two-element pair. -/
def markChangesAreSame (m : SameChangePairs) (key : String) (mtime1 mtime2 : Nat) :
    SameChangePairs :=
  if mtime1 = mtime2 then m
  else
    let pairs := m key
    if pairs.any (fun e => e = mtime1 || e = mtime2) then
      pairsSet m key (jsDedup (pairs ++ [mtime1, mtime2]))
    else
      pairsSet m key [mtime1, mtime2]

/-- Embedding of unmarkChanges (src/common/utils.ts lines 301-304):
deletes the key, after which reads see the default empty list. -/
def unmarkChanges (m : SameChangePairs) (key : String) : SameChangePairs :=
  pairsSet m key []

/-- Embedding of isMarkedAsSameChanges (src/common/utils.ts lines 305-311):
returns EVEN (truthy, here true) exactly when every queried mtime occurs
in the stored list for the key; otherwise returns undefined (falsy, here
false). -/
def isMarkedAsSameChanges (m : SameChangePairs) (key : String) (mtimes : List Nat) : Bool :=
  mtimes.all (fun e => (m key).contains e)

/-- The storage-side file descriptor (UXFileInfoStub): path, folder flag,
internal flag, stat.mtime (0 when unset, as the source defaults with
?? 0), and an optional in-memory body. -/
structure Stub where
  path : String
  isFolder : Bool := false
  isInternal : Bool := false
  mtime : Nat := 0
  body : Option String := none
deriving DecidableEq, Repr

/-- The database-side document metadata (MetaEntry): logical path (as
resolved by getPath from its id), revision token, mtime (0 when unset),
and the two historically-named deletion markers checked by the source. -/
structure MetaEntry where
  path : String
  rev : Option String := none
  mtime : Nat := 0
  isDeleted : Bool := false
  deletedFlag : Bool := false
deriving DecidableEq, Repr

/-- The fully-read document entry (the result of fetchEntryFromMeta):
path, content data, creation time, modification time. -/
structure EntryRead where
  path : String
  data : String
  ctime : Nat := 0
  mtime : Nat := 0
deriving DecidableEq, Repr

/-- Embedding of compareFileFreshness (src/common/utils.ts lines 312-327)
at the types it is used with in dbToStorage: base is the storage stub,
target the document metadata.  Absence handling first; then, when both
raw mtimes are truthy (nonzero) and registered as the same change for the
base path, short-circuit to EVEN; else delegate to compareMTime (whose
throw would propagate). -/
def compareFileFreshness (m : SameChangePairs) (baseFile : Option Stub)
    (checkTarget : Option MetaEntry) : Except String MTimeVerdict :=
  match baseFile, checkTarget with
  | none, none => .ok EVEN
  | none, some _ => .ok TARGET_IS_NEW
  | some _, none => .ok BASE_IS_NEW
  | some b, some t =>
    let modifiedBase := b.mtime
    let modifiedTarget := t.mtime
    if modifiedBase ≠ 0 ∧ modifiedTarget ≠ 0 ∧
        isMarkedAsSameChanges m b.path [modifiedBase, modifiedTarget] then
      .ok EVEN
    else
      compareMTime modifiedBase modifiedTarget

/-- A mutation or notification the engine requests from its external
services, recorded in order of issue. -/
inductive Effect where
  | queueConflictCheck : String → Effect
  | deleteVaultItem : String → Effect
  | ensureDir : String → Effect
  | writeFile : String → String → Nat → Nat → Effect
  | touched : String → Effect
  | fileEvent : String → String → Effect
  | markSame : String → Nat → Nat → Effect
  | dbDelete : String → Option String → Effect
deriving DecidableEq, Repr

/-- An effect that mutates the storage side (writes, deletes, directory
creation); queueing a conflict check, notifications, equivalence marks
and database deletes are not storage mutations. -/
def Effect.isStorageMutation : Effect → Bool
  | .deleteVaultItem _ => true
  | .ensureDir _ => true
  | .writeFile _ _ _ _ => true
  | _ => false

/-- The external services consumed by ModuleFileHandler, as read-only
oracles: database lookups, storage lookups and reads, the results the
mutation primitives report, the writeDocumentsIfConflicted setting, and
the current sameChangePairs store. -/
structure Env where
  fetchEntryMeta : String → Option String → Option MetaEntry
  fetchEntry : String → Option MetaEntry
  fetchEntryFromMeta : MetaEntry → Option EntryRead
  getConflictedRevs : String → List String
  getStub : String → Option Stub
  readStubContent : Stub → Option String
  writeFileAuto : String → Bool
  dbDelete : String → Option String → Bool
  writeDocumentsIfConflicted : Bool
  pairs : SameChangePairs

/-- Embedding of readFileFromStub (ModuleFileHandler.ts lines 40-49): use
the in-memory body when present and truthy (nonempty), otherwise read
from storage; a missing file on storage throws. -/
def readFileFromStub (env : Env) (file : Stub) : Except String String :=
  match file.body with
  | some b =>
    if b ≠ "" then .ok b
    else
      match env.readStubContent file with
      | some c => .ok c
      | none => .error "File is not exist on the storage"
  | none =>
    match env.readStubContent file with
    | some c => .ok c
    | none => .error "File is not exist on the storage"

/-- The path resolved from a dbToStorage entryInfo argument (a bare path
or a MetaEntry whose path is used for the metadata re-fetch). -/
def entryInfoPath : String ⊕ MetaEntry → String
  | .inl p => p
  | .inr e => e.path

/-- Embedding of dbToStorage (ModuleFileHandler.ts lines 201-306).
Returns the reported boolean (exceptions from reads propagate) together
with the ordered list of mutation or notification requests issued.  The
entryInfo is only used to re-fetch the metadata by path with no revision
argument; the mode of the emitted file event is create when info is
absent and modify otherwise. -/
def dbToStorage (env : Env) (entryInfo : String ⊕ MetaEntry) (info : Option Stub)
    (force : Bool) : Except String (Bool × List Effect) :=
  let mode : String := match info with | none => "create" | some _ => "modify"
  match env.fetchEntryMeta (entryInfoPath entryInfo) none with
  | none => .ok (false, [])
  | some docEntry =>
    let path := docEntry.path
    let revs := env.getConflictedRevs path
    if 0 < revs.length ∧ env.writeDocumentsIfConflicted = false then
      .ok (true, [Effect.queueConflictCheck path])
    else
      let existDoc := env.getStub path
      if (existDoc.map (·.isFolder)).getD false then
        .ok (true, [])
      else
        let existOnDB := ¬(docEntry.isDeleted ∨ docEntry.deletedFlag)
        let existOnStorage := existDoc.isSome
        if ¬existOnDB ∧ ¬existOnStorage then
          .ok (true, [])
        else if ¬existOnDB ∧ existOnStorage then
          .ok (true, [Effect.deleteVaultItem path])
        else
          match env.fetchEntryFromMeta docEntry with
          | none => .ok (false, [])
          | some docRead =>
            let docData := docRead.data
            let applyChanges : List Effect → Except String (Bool × List Effect) :=
              fun effs =>
                .ok (env.writeFileAuto path,
                  effs ++ [Effect.ensureDir path,
                           Effect.writeFile path docData docRead.ctime docRead.mtime,
                           Effect.touched path,
                           Effect.fileEvent mode path])
            match existDoc, force with
            | some stub, false =>
              match compareFileFreshness env.pairs (some stub) (some docEntry) with
              | .error e => .error e
              | .ok verdict =>
                if verdict ≠ EVEN then
                  match readFileFromStub env stub with
                  | .error e => .error e
                  | .ok body =>
                    if docData = body then
                      .ok (true, [Effect.markSame docRead.path docRead.mtime stub.mtime])
                    else
                      applyChanges []
                else
                  .ok (true, [])
            | _, _ => applyChanges []

/-- Embedding of dbToStorageWithSpecificRev (ModuleFileHandler.ts lines
183-199): resolve the file, fetch the metadata of the specific revision,
then delegate to dbToStorage. -/
def dbToStorageWithSpecificRev (env : Env) (info : Option Stub) (rev : String)
    (force : Bool) : Except String (Bool × List Effect) :=
  match info with
  | none => .ok (false, [])
  | some file =>
    match env.fetchEntryMeta file.path (some rev) with
    | none => .ok (false, [])
    | some docEntry => dbToStorage env (.inr docEntry) (some file) force

/-- Embedding of deleteFileFromDB (ModuleFileHandler.ts lines 128-158):
missing file, internal file, or missing or deleted entry report false
with no effect; a conflicted path deletes only the revision matching the
fetched entry's rev; otherwise the document is deleted outright. -/
def deleteFileFromDB (env : Env) (info : Option Stub) : Bool × List Effect :=
  match info with
  | none => (false, [])
  | some file =>
    if file.isInternal then (false, [])
    else
      match env.fetchEntry file.path with
      | none => (false, [])
      | some entry =>
        if entry.isDeleted ∨ entry.deletedFlag then (false, [])
        else if 0 < (env.getConflictedRevs file.path).length then
          (env.dbDelete file.path entry.rev, [Effect.dbDelete file.path entry.rev])
        else
          (env.dbDelete file.path none, [Effect.dbDelete file.path none])

/-- The serialization lock key computed by the file-event entry point
(ModuleFileHandler.ts line 320): the path prefixed with
"processFileEvent-". -/
def anyHandlerProcessesFileEventLockKey (path : String) : String :=
  "processFileEvent-" ++ path

/-- The serialization lock key computed by the replication-intake entry
point (ModuleFileHandler.ts line 339): the bare document path. -/
def anyProcessReplicatedDocLockKey (path : String) : String :=
  path

/-- A concrete conflicted document metadata used for evaluation. -/
def metaC1 : MetaEntry := { path := "c1.md", rev := some "2-x", mtime := 1000 }

/-- A concrete environment whose document at c1.md has two live
conflicting revisions, with writing through conflicts disabled. -/
def envC1 : Env := {
  fetchEntryMeta := fun p _ => if p = "c1.md" then some metaC1 else none,
  fetchEntry := fun _ => none,
  fetchEntryFromMeta := fun _ => none,
  getConflictedRevs := fun p => if p = "c1.md" then ["2-x", "2-y"] else [],
  getStub := fun _ => none,
  readStubContent := fun _ => none,
  writeFileAuto := fun _ => true,
  dbDelete := fun _ _ => true,
  writeDocumentsIfConflicted := false,
  pairs := sameChangePairsEmpty }

/-- A storage stub at b.md whose content differs from the database
document while their mtimes fall in the same 2000 ms bucket. -/
def stubC2 : Stub := { path := "b.md", mtime := 1000, body := some "LOCAL" }

/-- The database metadata for b.md, mtime bucket-equal to the stub. -/
def metaC2 : MetaEntry := { path := "b.md", rev := some "5-r", mtime := 1500 }

/-- The fully-read database document for b.md, content REMOTE. -/
def readC2 : EntryRead := { path := "b.md", data := "REMOTE", ctime := 10, mtime := 1500 }

/-- A concrete environment for b.md: no conflicts, storage file present,
timestamps bucket-equal, contents different. -/
def envC2 : Env := {
  fetchEntryMeta := fun p _ => if p = "b.md" then some metaC2 else none,
  fetchEntry := fun _ => none,
  fetchEntryFromMeta := fun _ => some readC2,
  getConflictedRevs := fun _ => [],
  getStub := fun p => if p = "b.md" then some stubC2 else none,
  readStubContent := fun _ => some "LOCAL",
  writeFileAuto := fun _ => true,
  dbDelete := fun _ _ => true,
  writeDocumentsIfConflicted := false,
  pairs := sameChangePairsEmpty }

/-- Storage stub of a conflicted file c.md. -/
def stubDelC : Stub := { path := "c.md", mtime := 400 }

/-- Storage stub of an unconflicted file n.md. -/
def stubDelN : Stub := { path := "n.md", mtime := 500 }

/-- A concrete environment for deletion: c.md has a conflicting sibling
revision, n.md has none. -/
def envDel : Env := {
  fetchEntryMeta := fun _ _ => none,
  fetchEntry := fun p =>
    if p = "c.md" then some { path := "c.md", rev := some "3-aaa" }
    else if p = "n.md" then some { path := "n.md", rev := some "1-bbb" }
    else none,
  fetchEntryFromMeta := fun _ => none,
  getConflictedRevs := fun p => if p = "c.md" then ["3-ccc"] else [],
  getStub := fun _ => none,
  readStubContent := fun _ => none,
  writeFileAuto := fun _ => true,
  dbDelete := fun _ _ => true,
  writeDocumentsIfConflicted := false,
  pairs := sameChangePairsEmpty }

/-- The metadata of the specific (losing) revision 1-old of w.md. -/
def specMetaC5 : MetaEntry := { path := "w.md", rev := some "1-old", mtime := 1000 }

/-- The metadata of the winning revision 2-win of w.md. -/
def winMetaC5 : MetaEntry := { path := "w.md", rev := some "2-win", mtime := 3000 }

/-- The winning revision's full content for w.md. -/
def winReadC5 : EntryRead := { path := "w.md", data := "WIN", ctime := 7, mtime := 3000 }

/-- Storage stub handed to dbToStorageWithSpecificRev for w.md. -/
def fileC5 : Stub := { path := "w.md", mtime := 900 }

/-- A concrete environment where the revision-specific lookup of w.md
returns the 1-old metadata (content OLD) while the plain path lookup
returns the winning 2-win metadata (content WIN); no conflicts, no
storage file at the target path. -/
def envC5 : Env := {
  fetchEntryMeta := fun p r =>
    if p = "w.md" then
      if r = some "1-old" then some specMetaC5
      else if r = none then some winMetaC5
      else none
    else none,
  fetchEntry := fun _ => none,
  fetchEntryFromMeta := fun m =>
    if m.rev = some "2-win" then some winReadC5
    else some { path := "w.md", data := "OLD", ctime := 7, mtime := 1000 },
  getConflictedRevs := fun _ => [],
  getStub := fun _ => none,
  readStubContent := fun _ => none,
  writeFileAuto := fun _ => true,
  dbDelete := fun _ _ => true,
  writeDocumentsIfConflicted := false,
  pairs := sameChangePairsEmpty }

/-- C6: for all timestamps a and b, equal 2000-truncated buckets make
compareMTime return EVEN; a strictly larger bucket on the base side makes
compareMTime return BASE_IS_NEW, and the swapped call TARGET_IS_NEW. -/
theorem compareMTime_bucket_verdicts (a b : Nat) :
    (a / 2000 = b / 2000 → compareMTime a b = .ok EVEN) ∧
    (b / 2000 < a / 2000 →
      compareMTime a b = .ok BASE_IS_NEW ∧ compareMTime b a = .ok TARGET_IS_NEW) := by
  constructor
  · intro h
    simp only [compareMTime, resolution]
    rw [if_pos (by omega)]
  · intro h
    constructor
    · simp only [compareMTime, resolution]
      rw [if_neg (by omega), if_pos (by omega)]
    · simp only [compareMTime, resolution]
      rw [if_neg (by omega), if_neg (by omega), if_pos (by omega)]

/-- Witness for C6 at concrete timestamps 4100, 5900 and 1000. -/
theorem compareMTime_bucket_verdicts_witness :
    compareMTime 4100 5900 = .ok EVEN ∧
    compareMTime 4100 1000 = .ok BASE_IS_NEW ∧
    compareMTime 1000 4100 = .ok TARGET_IS_NEW :=
  ⟨(compareMTime_bucket_verdicts 4100 5900).1 (by decide),
   ((compareMTime_bucket_verdicts 4100 1000).2 (by decide)).1,
   ((compareMTime_bucket_verdicts 4100 1000).2 (by decide)).2⟩

/-- C10: compareMTime is total on all pairs of timestamps: it always
returns one of the three verdicts and its trailing throw branch
(Except.error) is unreachable. -/
theorem compareMTime_total (a b : Nat) : ∃ v, compareMTime a b = .ok v := by
  simp only [compareMTime, resolution]
  split_ifs with h1 h2 h3
  · exact ⟨EVEN, rfl⟩
  · exact ⟨BASE_IS_NEW, rfl⟩
  · exact ⟨TARGET_IS_NEW, rfl⟩
  · exact absurd (by omega : a / 2000 * 2000 = b / 2000 * 2000) h1

/-- C8: compareFileFreshness on absences: both absent gives EVEN, base
absent gives TARGET_IS_NEW, target absent gives BASE_IS_NEW. -/
theorem compareFileFreshness_absence (m : SameChangePairs) :
    compareFileFreshness m none none = .ok EVEN ∧
    (∀ t : MetaEntry, compareFileFreshness m none (some t) = .ok TARGET_IS_NEW) ∧
    (∀ b : Stub, compareFileFreshness m (some b) none = .ok BASE_IS_NEW) :=
  ⟨rfl, fun _ => rfl, fun _ => rfl⟩

/-- C7: markChangesAreSame is a no-op on equal timestamps, unions the
pair into the existing set when it intersects it, replaces the set by
the fresh pair otherwise; hence after marking (100, 205) the pair
[100, 205] is registered as equivalent, and after a further mark of
(205, 9999) the pair [100, 9999] is as well (transitive merge). -/
theorem markChangesAreSame_transitive_merge :
    (∀ (m : SameChangePairs) (k : String) (t : Nat), markChangesAreSame m k t t = m) ∧
    (∀ (m : SameChangePairs) (k : String) (t1 t2 : Nat), t1 ≠ t2 →
      (m k).any (fun e => e = t1 || e = t2) = true →
      markChangesAreSame m k t1 t2 = pairsSet m k (jsDedup (m k ++ [t1, t2]))) ∧
    (∀ (m : SameChangePairs) (k : String) (t1 t2 : Nat), t1 ≠ t2 →
      (m k).any (fun e => e = t1 || e = t2) = false →
      markChangesAreSame m k t1 t2 = pairsSet m k [t1, t2]) ∧
    (isMarkedAsSameChanges
      (markChangesAreSame sameChangePairsEmpty "p" 100 205) "p" [100, 205] = true ∧
     isMarkedAsSameChanges
      (markChangesAreSame (markChangesAreSame sameChangePairsEmpty "p" 100 205) "p" 205 9999)
      "p" [100, 9999] = true) := by
  refine ⟨?_, ?_, ?_, by decide, by decide⟩
  · intro m k t
    simp [markChangesAreSame]
  · intro m k t1 t2 h1 h2
    simp only [markChangesAreSame]
    rw [if_neg h1, if_pos h2]
  · intro m k t1 t2 h1 h2
    simp only [markChangesAreSame]
    rw [if_neg h1, if_neg (by simp [h2])]

/-- Witness for C7 at concrete stores and timestamps. -/
theorem markChangesAreSame_transitive_merge_witness :
    markChangesAreSame sameChangePairsEmpty "q" 3 3 = sameChangePairsEmpty ∧
    markChangesAreSame (pairsSet sameChangePairsEmpty "q" [3, 4]) "q" 4 7
      = pairsSet (pairsSet sameChangePairsEmpty "q" [3, 4]) "q"
          (jsDedup ((pairsSet sameChangePairsEmpty "q" [3, 4]) "q" ++ [4, 7])) ∧
    markChangesAreSame (pairsSet sameChangePairsEmpty "q" [3, 4]) "q" 8 9
      = pairsSet (pairsSet sameChangePairsEmpty "q" [3, 4]) "q" [8, 9] :=
  ⟨markChangesAreSame_transitive_merge.1 sameChangePairsEmpty "q" 3,
   markChangesAreSame_transitive_merge.2.1 _ "q" 4 7 (by decide) (by decide),
   markChangesAreSame_transitive_merge.2.2.1 _ "q" 8 9 (by decide) (by decide)⟩

/-- C9 counterexample: after unmarkChanges, a query with the empty
timestamp list still returns EVEN (truthy), not false, because every is
vacuously true on the empty list. -/
theorem isMarkedAsSameChanges_after_unmark_empty_query :
    isMarkedAsSameChanges
      (unmarkChanges (markChangesAreSame sameChangePairsEmpty "p" 100 205) "p") "p" [] = true := by
  decide

/-- C9 (amended): after unmarkChanges on a path, every subsequent query
for that path with a nonempty timestamp list returns false until a new
pair is registered. -/
theorem isMarkedAsSameChanges_after_unmark (m : SameChangePairs) (p : String)
    (mtimes : List Nat) (h : mtimes ≠ []) :
    isMarkedAsSameChanges (unmarkChanges m p) p mtimes = false := by
  cases mtimes with
  | nil => exact absurd rfl h
  | cons a t => simp [isMarkedAsSameChanges, unmarkChanges, pairsSet]

/-- Witness for the amended C9 at a concrete store and query. -/
theorem isMarkedAsSameChanges_after_unmark_witness :
    isMarkedAsSameChanges
      (unmarkChanges (markChangesAreSame sameChangePairsEmpty "p2" 100 205) "p2") "p2" [100, 205]
      = false :=
  isMarkedAsSameChanges_after_unmark _ "p2" [100, 205] (by decide)

/-- C3 counterexample: at the concrete path a.md the lock key of the
file-event entry point differs from the lock key of the
replication-intake entry point. -/
theorem lockKeys_differ_at_concrete_path :
    anyHandlerProcessesFileEventLockKey "a.md" ≠ anyProcessReplicatedDocLockKey "a.md" := by
  decide

/-- C3 (amended): the file-event entry point computes the lock key by
prefixing the path with processFileEvent-, the replication-intake entry
point uses the bare path, and the two keys are never equal; so the two
entry points are not serialized against each other on a shared key. -/
theorem lockKeys_never_agree (p : String) :
    anyHandlerProcessesFileEventLockKey p = "processFileEvent-" ++ p ∧
    anyProcessReplicatedDocLockKey p = p ∧
    anyHandlerProcessesFileEventLockKey p ≠ anyProcessReplicatedDocLockKey p := by
  refine ⟨rfl, rfl, ?_⟩
  intro h
  have h2 := congrArg String.length h
  rw [anyHandlerProcessesFileEventLockKey, anyProcessReplicatedDocLockKey,
    String.length_append] at h2
  have h3 : ("processFileEvent-" : String).length = 17 := rfl
  omega

/-- C1: when the resolved document's path has at least one conflicting
revision and writeDocumentsIfConflicted is false, dbToStorage only
queues the path for an external conflict check, issues no storage
mutation, and reports success. -/
theorem dbToStorage_conflict_defers (env : Env) (entryInfo : String ⊕ MetaEntry)
    (info : Option Stub) (force : Bool) (docEntry : MetaEntry)
    (hfetch : env.fetchEntryMeta (entryInfoPath entryInfo) none = some docEntry)
    (hconf : env.getConflictedRevs docEntry.path ≠ [])
    (hset : env.writeDocumentsIfConflicted = false) :
    ∃ effects, dbToStorage env entryInfo info force = .ok (true, effects) ∧
      effects = [Effect.queueConflictCheck docEntry.path] ∧
      ∀ e ∈ effects, e.isStorageMutation = false := by
  refine ⟨[Effect.queueConflictCheck docEntry.path], ?_, rfl, ?_⟩
  · simp only [dbToStorage, hfetch]
    rw [if_pos ⟨List.length_pos.mpr hconf, hset⟩]
  · intro e he
    simp only [List.mem_singleton] at he
    subst he
    rfl

/-- Witness for C1 on the concrete conflicted environment envC1. -/
theorem dbToStorage_conflict_defers_witness :
    dbToStorage envC1 (.inl "c1.md") none false
      = .ok (true, [Effect.queueConflictCheck "c1.md"]) := by
  obtain ⟨effs, h1, h2, _⟩ :=
    dbToStorage_conflict_defers envC1 (.inl "c1.md") none false metaC1 rfl (by decide) rfl
  rw [h2] at h1
  exact h1

/-- C4: deleteFileFromDB reports false with no deletion when the entry is
absent or already deleted; deletes only the revision matching the fetched
entry's rev when the path has conflicting revisions; and deletes the
document outright (no revision argument) otherwise. -/
theorem deleteFileFromDB_asymmetry (env : Env) (file : Stub)
    (hInt : file.isInternal = false) :
    (env.fetchEntry file.path = none → deleteFileFromDB env (some file) = (false, [])) ∧
    (∀ e, env.fetchEntry file.path = some e → (e.isDeleted ∨ e.deletedFlag) →
      deleteFileFromDB env (some file) = (false, [])) ∧
    (∀ e, env.fetchEntry file.path = some e → e.isDeleted = false → e.deletedFlag = false →
      env.getConflictedRevs file.path ≠ [] →
      deleteFileFromDB env (some file)
        = (env.dbDelete file.path e.rev, [Effect.dbDelete file.path e.rev])) ∧
    (∀ e, env.fetchEntry file.path = some e → e.isDeleted = false → e.deletedFlag = false →
      env.getConflictedRevs file.path = [] →
      deleteFileFromDB env (some file)
        = (env.dbDelete file.path none, [Effect.dbDelete file.path none])) := by
  refine ⟨?_, ?_, ?_, ?_⟩
  · intro hf
    simp [deleteFileFromDB, hInt, hf]
  · intro e hf hd
    simp only [deleteFileFromDB, hInt, hf, Bool.false_eq_true, if_false]
    rw [if_pos hd]
  · intro e hf hd1 hd2 hc
    simp only [deleteFileFromDB, hInt, hf, Bool.false_eq_true, if_false]
    rw [if_neg (by simp [hd1, hd2]), if_pos (List.length_pos.mpr hc)]
  · intro e hf hd1 hd2 hc
    simp only [deleteFileFromDB, hInt, hf, Bool.false_eq_true, if_false]
    rw [if_neg (by simp [hd1, hd2]), if_neg (by simp [hc])]

/-- Witness for C4 on the concrete environment envDel: the conflicted
file c.md is deleted at its own revision only, the unconflicted file
n.md is deleted outright. -/
theorem deleteFileFromDB_asymmetry_witness :
    deleteFileFromDB envDel (some stubDelC) = (true, [Effect.dbDelete "c.md" (some "3-aaa")]) ∧
    deleteFileFromDB envDel (some stubDelN) = (true, [Effect.dbDelete "n.md" none]) :=
  ⟨(deleteFileFromDB_asymmetry envDel stubDelC rfl).2.2.1 _ rfl rfl rfl (by decide),
   (deleteFileFromDB_asymmetry envDel stubDelN rfl).2.2.2 _ rfl rfl rfl rfl⟩

/-- C5: dbToStorage resolves the document metadata by path alone,
discarding the revision of a MetaEntry passed as entryInfo; consequently
dbToStorageWithSpecificRev writes the content of the currently winning
revision at that path, not the content of the requested revision. -/
theorem dbToStorageWithSpecificRev_writes_winning (env : Env) (file : Stub) (rev : String)
    (force : Bool) (specMeta winMeta : MetaEntry) (winRead : EntryRead)
    (hspec : env.fetchEntryMeta file.path (some rev) = some specMeta)
    (hwin : env.fetchEntryMeta specMeta.path none = some winMeta)
    (hconf : env.getConflictedRevs winMeta.path = [])
    (hstub : env.getStub winMeta.path = none)
    (hdel1 : winMeta.isDeleted = false) (hdel2 : winMeta.deletedFlag = false)
    (hread : env.fetchEntryFromMeta winMeta = some winRead) :
    (∀ (e : MetaEntry) (info : Option Stub) (f : Bool),
      dbToStorage env (.inr e) info f = dbToStorage env (.inl e.path) info f) ∧
    dbToStorageWithSpecificRev env (some file) rev force
      = .ok (env.writeFileAuto winMeta.path,
          [Effect.ensureDir winMeta.path,
           Effect.writeFile winMeta.path winRead.data winRead.ctime winRead.mtime,
           Effect.touched winMeta.path,
           Effect.fileEvent "modify" winMeta.path]) := by
  constructor
  · intro e info f
    rfl
  · simp only [dbToStorageWithSpecificRev, hspec, dbToStorage, entryInfoPath, hwin, hconf,
      hstub, hdel1, hdel2, hread]
    simp

/-- Witness for C5 on the concrete environment envC5: requesting the
losing revision 1-old still writes the winning revision's content WIN. -/
theorem dbToStorageWithSpecificRev_writes_winning_witness :
    dbToStorageWithSpecificRev envC5 (some fileC5) "1-old" false
      = .ok (true,
          [Effect.ensureDir "w.md",
           Effect.writeFile "w.md" "WIN" 7 3000,
           Effect.touched "w.md",
           Effect.fileEvent "modify" "w.md"]) :=
  (dbToStorageWithSpecificRev_writes_winning envC5 fileC5 "1-old" false
    specMetaC5 winMetaC5 winReadC5 rfl rfl rfl rfl rfl rfl rfl).2

/-- C2 (code evaluated at the failing input): on envC2 the storage file
and the document have bucket-equal timestamps (freshness EVEN) while
their contents differ (REMOTE on the database, LOCAL on storage), yet
dbToStorage reports success with no effects at all: it neither reads the
storage content nor writes, where the documented behaviour requires a
byte comparison and, on differing content, a write. -/
theorem dbToStorage_even_skips_content_check :
    compareFileFreshness envC2.pairs (some stubC2) (some metaC2) = .ok EVEN ∧
    readFileFromStub envC2 stubC2 = .ok "LOCAL" ∧
    readC2.data ≠ "LOCAL" ∧
    dbToStorage envC2 (.inl "b.md") (some stubC2) false = .ok (true, []) := by
  refine ⟨rfl, rfl, by decide, ?_⟩
  rfl
